import Mathlib

/-!
Verification of the CableScope serial protocol core.

Shallow embedding of:
* the device-side telemetry frame encoder `sendDataPacket` from the firmware
  sources (`FIRMWARE_INO_CONTENT`, V2, 13-byte payload, and
  `RANDOM_TORQUE_FIRMWARE_CONTENT`, V3, 21-byte payload) in
  `python_gui/core/firmware_resources.py`;
* the host-side scanner `SerialCommunicationManager.read_data_packet`,
  the command sender `send_torque_command` (ACK wait loop), the
  mode-detection part of `connect_to_port`, and `disconnect`, all from
  `python_gui/core/serial_manager.py`.

Modelling conventions:
* A byte is a `Nat`; encoders only produce values `< 256`.
* An IEEE-754 float is represented by its 32-bit pattern (a `Nat < 2^32`);
  `struct.pack '<f'` / the firmware `union {float; uint8_t[4]}` on the
  little-endian Teensy turn a pattern into its 4 little-endian bytes
  (`toLEBytes`) and `struct.unpack '<f'` inverts this (`fromLEBytes`).
  Exact (bit-identical) float transport is byte-level equality.
* The serial port is modelled by the list of bytes waiting in the inbound
  buffer; `in_waiting` is its length, `read n` takes `min n length` bytes
  (pyserial returns the available bytes when the timeout expires and no
  further byte arrives during the poll), `reset_input_buffer` empties it.
* Qt signal emissions are collected in an ordered `List Event`.
* An I/O-level failure of the port during a read (device unplugged, port
  closed by the OS) is modelled by the `ioFault` flag: when set, the first
  port read raises, and control goes to the generic exception handler of
  `read_data_packet`.
-/

namespace CableScope

/-! ### Protocol constants (serial_manager.py lines 18-24, firmware defines) -/

def HEADER1 : Nat := 0xFF
def HEADER2 : Nat := 0xFF
def CMD_SET_TORQUE : Nat := 0x01
def CMD_GET_DATA : Nat := 0x02
/-- 1 byte cmd + 4 bytes torque + 4 bytes angle + 4 bytes PWM -/
def DATA_PACKET_SIZE : Nat := 13
def ACK_BYTE : Nat := 0xAA
/-- V3 firmware: 1 cmd + 4 millis + 4 desired + 4 actual + 4 pwm + 4 angle -/
def DATA_PACKET_SIZE_V3 : Nat := 21

/-! ### Float bit patterns and little-endian serialization -/

/-- The 4 little-endian bytes of a 32-bit value: `struct.pack '<f'` applied
to the float whose IEEE-754 pattern is `bits`, and likewise the firmware
`union {float f; uint8_t bytes[4]}` on the little-endian target. -/
def toLEBytes (bits : Nat) : List Nat :=
  [bits % 256, bits / 256 % 256, bits / 65536 % 256, bits / 16777216 % 256]

/-- Rebuild the 32-bit pattern from 4 little-endian bytes:
`struct.unpack '<f'` on a 4-byte slice. -/
def fromLEBytes : List Nat → Nat
  | [b0, b1, b2, b3] => b0 + 256 * b1 + 65536 * b2 + 16777216 * b3
  | _ => 0

/-! ### Checksums -/

/-- The firmware checksum accumulator: a `uint8_t` into which the bytes
`packet[2] .. packet[len+2]` are added, wrapping mod 256 at every step. -/
def sumMod256 (l : List Nat) : Nat :=
  l.foldl (fun c b => (c + b) % 256) 0

/-- Python's `(~x + 1) & 0xFF` on a nonnegative int `x`: `~x + 1 = -x`, and
`(-x) & 0xFF` is the two's-complement residue `(-x) mod 256`. -/
def pyTwosComplement (x : Nat) : Nat :=
  (256 - x % 256) % 256

/-- `read_data_packet`'s expected checksum: start from the packet-size byte
and add the 13 data bytes (`remaining_data[:13]`), then take the
two's complement (serial_manager.py lines 396-405). -/
def host_calculated_checksum (packetSize : Nat) (dataBytes : List Nat) : Nat :=
  pyTwosComplement (dataBytes.foldl (· + ·) packetSize)

/-! ### Device-side frame encoders -/

/-- `sendDataPacket` of the V2 firmware (firmware_resources.py lines
187-241): header, size byte 13, command `0x02`, torque/angle/pwm floats as
little-endian bytes, then the checksum `(~c) + 1` over bytes 2..15 where
`c` is the wrapping `uint8_t` sum. -/
def sendDataPacket (torqueBits angleBits pwmBits : Nat) : List Nat :=
  let payload := CMD_GET_DATA :: (toLEBytes torqueBits ++ (toLEBytes angleBits ++ toLEBytes pwmBits))
  let checksum := (255 - sumMod256 (DATA_PACKET_SIZE :: payload) + 1) % 256
  HEADER1 :: HEADER2 :: DATA_PACKET_SIZE :: (payload ++ [checksum])

/-- `sendDataPacket` of the V3 (random-torque) firmware (firmware_resources.py
lines 510-590): size byte 21, command, then millis/desired/actual/pwm/angle
floats, checksum over bytes 2..23. -/
def sendDataPacketV3 (millisBits desiredBits actualBits pwmBits angleBits : Nat) : List Nat :=
  let payload := CMD_GET_DATA ::
    (toLEBytes millisBits ++ (toLEBytes desiredBits ++
      (toLEBytes actualBits ++ (toLEBytes pwmBits ++ toLEBytes angleBits))))
  let checksum := (255 - sumMod256 (DATA_PACKET_SIZE_V3 :: payload) + 1) % 256
  HEADER1 :: HEADER2 :: DATA_PACKET_SIZE_V3 :: (payload ++ [checksum])

/-! ### Host-side manager state, events and results -/

/-- Firmware mode as stored in `SerialCommunicationManager.firmware_mode`
(the strings "interactive" and "random_torque"). -/
inductive FirmwareMode where
  | interactive
  | random_torque
deriving DecidableEq, Repr

/-- Qt signal emissions of the manager, in emission order. -/
inductive Event where
  /-- `error_occurred("Data packet checksum verification failed ...")` -/
  | checksumMismatch (received expected : Nat)
  /-- `error_occurred("Error reading data packet: ...")` from the generic
  exception handler of `read_data_packet`. -/
  | readError
  /-- `error_occurred("Torque command acknowledgment timeout")` -/
  | ackTimeout
  /-- `error_occurred("Error closing port: ...")` -/
  | closeError
  /-- `error_occurred("Failed to communicate with device on ...")` -/
  | communicationFailed
  /-- `command_acknowledged` -/
  | commandAcknowledged
  /-- `firmware_mode_detected` -/
  | firmwareModeDetected (m : FirmwareMode)
  /-- `connection_changed` -/
  | connectionChanged (connected : Bool)
deriving DecidableEq, Repr

/-- The state of a `SerialCommunicationManager` relevant to the protocol
claims, together with the modelled port. `portPresent` is
`serial_port is not None`; `portOpen` is `serial_port.is_open`. -/
structure ManagerState where
  portPresent : Bool
  portOpen : Bool
  isConnected : Bool
  currentPort : String
  firmwareMode : FirmwareMode
  modeDetectionComplete : Bool
  ackTimeoutCount : Nat
  /-- Bytes waiting in the inbound buffer (`in_waiting` is its length). -/
  inBuffer : List Nat
  /-- When true, the first port read raises an I/O-level exception. -/
  ioFault : Bool
deriving DecidableEq, Repr

/-- Return value of `read_data_packet`: `None`, or the decoded dict
`{"torque": .., "angle": .., "pwm": ..}` with the floats as bit patterns. -/
inductive ReadResult where
  | noPacket
  | packet (torqueBits angleBits pwmBits : Nat)
deriving DecidableEq, Repr

/-- One call of `read_data_packet`: the state afterwards, the signals
emitted during the call, and the returned value. -/
structure ReadStep where
  state : ManagerState
  events : List Event
  result : ReadResult
deriving DecidableEq, Repr

/-! ### Host-side scanner `read_data_packet` (serial_manager.py 346-427) -/

/-- `SerialCommunicationManager.read_data_packet`.  Mirrors the source line
by line: the connected guard, the `in_waiting < 16` precondition, `read(3)`
and the header / size checks (each failure clears the whole input buffer),
`read(packet_size + 1)` with its length check, the command check, float
extraction, and checksum verification.  `header_data[i]` for `i < 3` is
`inBuffer.getD i 0` because the buffer holds at least 16 bytes at that
point; `read(n)` is `take n` / `drop n`.  An `ioFault` port raises at the
first read and lands in the generic `except` handler, which emits
`error_occurred` and returns `None` leaving the connection untouched. -/
def read_data_packet (s : ManagerState) : ReadStep :=
  if s.isConnected = false ∨ s.portPresent = false then ⟨s, [], .noPacket⟩
  else if s.inBuffer.length < 16 then ⟨s, [], .noPacket⟩
  else if s.ioFault then ⟨s, [.readError], .noPacket⟩
  else if ¬ ((s.inBuffer.take 3).length = 3 ∧
      s.inBuffer.getD 0 0 = HEADER1 ∧ s.inBuffer.getD 1 0 = HEADER2) then
    ⟨{ s with inBuffer := [] }, [], .noPacket⟩
  else
    let packet_size := s.inBuffer.getD 2 0
    if packet_size ≠ DATA_PACKET_SIZE then
      ⟨{ s with inBuffer := [] }, [], .noPacket⟩
    else
      let remaining_data := (s.inBuffer.drop 3).take (packet_size + 1)
      let rest := (s.inBuffer.drop 3).drop (packet_size + 1)
      if remaining_data.length ≠ packet_size + 1 then
        ⟨{ s with inBuffer := rest }, [], .noPacket⟩
      else if remaining_data.getD 0 0 ≠ CMD_GET_DATA then
        ⟨{ s with inBuffer := rest }, [], .noPacket⟩
      else
        let torque := fromLEBytes ((remaining_data.drop 1).take 4)
        let angle := fromLEBytes ((remaining_data.drop 5).take 4)
        let pwm := fromLEBytes ((remaining_data.drop 9).take 4)
        let received_checksum := remaining_data.getD 13 0
        let calculated_checksum := host_calculated_checksum packet_size (remaining_data.take 13)
        if received_checksum ≠ calculated_checksum then
          ⟨{ s with inBuffer := rest },
            [.checksumMismatch received_checksum calculated_checksum], .noPacket⟩
        else
          ⟨{ s with inBuffer := rest }, [], .packet torque angle pwm⟩

/-! ### Host-side command sender `send_torque_command` (serial_manager.py 273-344) -/

/-- The ACK scan of `send_torque_command`:
`for i in range(len(buffer) - 2): buffer[i..i+2] == FF FF AA`, expressed as
a sliding window over the buffer. -/
def scanAck : List Nat → Bool
  | b0 :: b1 :: b2 :: rest =>
    if b0 = HEADER1 ∧ b1 = HEADER2 ∧ b2 = ACK_BYTE then true
    else scanAck (b1 :: b2 :: rest)
  | _ => false

/-- The 3-byte ACK sentinel sequence occurs somewhere in `l`. -/
def containsAck (l : List Nat) : Prop :=
  ∃ i, (l.drop i).take 3 = [HEADER1, HEADER2, ACK_BYTE]

/-- The bounded ACK wait of `send_torque_command` (lines 312-335), with
time discretized into poll iterations: each entry of `chunks` is the group
of bytes found waiting at one iteration (possibly none), and the 2-second
deadline elapses when `chunks` is exhausted.  Per iteration the code drains
`in_waiting` bytes into the rolling buffer, scans the whole buffer for the
ACK pattern, and then truncates the buffer to its last 100 bytes. -/
def ackWaitLoop : List Nat → List (List Nat) → Bool
  | _, [] => false
  | buffer, chunk :: rest =>
    if chunk.length = 0 then ackWaitLoop buffer rest
    else
      let buffer1 := buffer ++ chunk
      if scanAck buffer1 then true
      else
        ackWaitLoop
          (if buffer1.length > 100 then buffer1.drop (buffer1.length - 100) else buffer1)
          rest

/-- `SerialCommunicationManager.send_torque_command` reduced to its
wire-visible outcome: `true` is the acknowledged outcome, `false` the
timeout / cannot-send outcome.  In `random_torque` mode the command is not
supported and the function trivially returns `True`; without `force_send`
an unconnected manager refuses; otherwise the frame is written and
`ackWaitLoop` runs on the inbound chunks until ACK or deadline. -/
def send_torque_command (mode : FirmwareMode) (isConnected portPresent force_send : Bool)
    (chunks : List (List Nat)) : Bool :=
  if mode = .random_torque then true
  else if force_send = false ∧ (isConnected = false ∨ portPresent = false) then false
  else if portPresent = false then false
  else ackWaitLoop [] chunks

/-! ### Mode detection in `connect_to_port` (serial_manager.py 176-248) -/

/-- Result of one `connect_to_port` attempt (modelled from the point where
the port opened successfully, the 1 s settle wait passed and the buffers
were cleared — claim C7 is about the detection trichotomy after that). -/
structure ConnectOutcome where
  success : Bool
  state : ManagerState
  events : List Event
deriving DecidableEq, Repr

/-- The mode-detection part of `SerialCommunicationManager.connect_to_port`
(lines 204-239).  The fresh manager probes with
`send_torque_command(0.0, force_send=True)` while still unconnected and in
the initial `interactive` mode; `probeChunks` are the bytes arriving during
that probe's ACK wait.  If the probe is not acknowledged the code sleeps
0.5 s and then inspects `in_waiting` (`waitingAfterProbe`): more than 10
waiting bytes mean the autonomous (`random_torque`) firmware; otherwise the
port is closed, released and the attempt fails with a communication
error. -/
def connect_to_port (port : String) (probeChunks : List (List Nat))
    (waitingAfterProbe : Nat) : ConnectOutcome :=
  let s0 : ManagerState :=
    { portPresent := true, portOpen := true, isConnected := false, currentPort := "",
      firmwareMode := .interactive, modeDetectionComplete := false, ackTimeoutCount := 0,
      inBuffer := [], ioFault := false }
  let test_success := send_torque_command .interactive false true true probeChunks
  if test_success = false then
    if waitingAfterProbe > 10 then
      let s1 := { s0 with firmwareMode := FirmwareMode.random_torque,
                          modeDetectionComplete := true, isConnected := true,
                          currentPort := port }
      { success := true, state := s1,
        events := [.ackTimeout, .firmwareModeDetected .random_torque, .connectionChanged true] }
    else
      let s1 := { s0 with portPresent := false, portOpen := false }
      { success := false, state := s1,
        events := [.ackTimeout, .communicationFailed] }
  else
    let s1 := { s0 with firmwareMode := FirmwareMode.interactive,
                        modeDetectionComplete := true, isConnected := true,
                        currentPort := port }
    { success := true, state := s1,
      events := [.commandAcknowledged, .firmwareModeDetected .interactive, .connectionChanged true] }

/-! ### `disconnect` (serial_manager.py 250-271) -/

/-- `SerialCommunicationManager.disconnect`.  With an open port it first
sends a best-effort zero-torque command (interactive mode only; that call
catches its own errors, so at worst it emits the ACK-timeout error —
`sendTimedOut`) and closes the port; a `close()` exception (`closeRaises`)
is caught and reported.  Afterwards, unconditionally: `serial_port = None`,
`is_connected = False`, `current_port = ""`, the detection state is reset
(`firmware_mode = "interactive"`, `mode_detection_complete = False`,
`ack_timeout_count = 0`) and `connection_changed(False)` is emitted. -/
def disconnect (s : ManagerState) (sendTimedOut closeRaises : Bool) :
    ManagerState × List Event :=
  let preEvents :=
    if s.portPresent = true ∧ s.portOpen = true then
      (if s.firmwareMode = .interactive ∧ sendTimedOut = true then [Event.ackTimeout] else []) ++
      (if closeRaises = true then [Event.closeError] else [])
    else []
  let s1 := { s with portPresent := false, portOpen := false, isConnected := false,
                     currentPort := "", firmwareMode := FirmwareMode.interactive,
                     modeDetectionComplete := false, ackTimeoutCount := 0 }
  (s1, preEvents ++ [Event.connectionChanged false])

/-! ### Concrete manager states used by the closed theorems -/

/-- A connected manager whose inbound buffer holds exactly the 17-byte V2
example frame: torque `1.234f` (bits `0x3F9DF3B6`), angle `-45.67f`
(bits `0xC236AE14`), pwm `812.0f` (bits `0x444B0000`). -/
def exampleFrameState : ManagerState :=
  { portPresent := true, portOpen := true, isConnected := true, currentPort := "COM3",
    firmwareMode := .interactive, modeDetectionComplete := true, ackTimeoutCount := 0,
    inBuffer := sendDataPacket 0x3F9DF3B6 0xC236AE14 0x444B0000, ioFault := false }

/-- A connected manager whose inbound buffer holds one 25-byte V3 frame. -/
def v3FrameState : ManagerState :=
  { portPresent := true, portOpen := true, isConnected := true, currentPort := "COM3",
    firmwareMode := .random_torque, modeDetectionComplete := true, ackTimeoutCount := 0,
    inBuffer := sendDataPacketV3 17 2 3 4 5, ioFault := false }

/-- A connected manager whose inbound buffer holds only the first 16 bytes
of a valid V2 frame (`in_waiting = 16`, one byte short of a full frame). -/
def sixteenByteState : ManagerState :=
  { portPresent := true, portOpen := true, isConnected := true, currentPort := "COM5",
    firmwareMode := .interactive, modeDetectionComplete := true, ackTimeoutCount := 0,
    inBuffer := (sendDataPacket 0x3F9DF3B6 0xC236AE14 0x444B0000).take 16, ioFault := false }

/-- A connected manager whose inbound buffer holds 16 bytes of noise whose
first byte is not the `0xFF` header sentinel. -/
def badHeaderState : ManagerState :=
  { portPresent := true, portOpen := true, isConnected := true, currentPort := "COM6",
    firmwareMode := .interactive, modeDetectionComplete := true, ackTimeoutCount := 0,
    inBuffer := List.replicate 16 171, ioFault := false }

/-- A connected manager whose inbound buffer holds a correctly framed
size-13 `GET_DATA` frame whose checksum byte 7 is wrong (the correct value
for this payload is 163). -/
def badChecksumState : ManagerState :=
  { portPresent := true, portOpen := true, isConnected := true, currentPort := "COM8",
    firmwareMode := .interactive, modeDetectionComplete := true, ackTimeoutCount := 0,
    inBuffer := HEADER1 :: HEADER2 :: DATA_PACKET_SIZE ::
      ([2, 1, 2, 3, 4, 5, 6, 7, 8, 9, 10, 11, 12] ++ 7 :: []), ioFault := false }

/-- A connected manager whose inbound buffer holds a correctly framed
size-13 frame whose command byte is 3 (not `GET_DATA = 2`), followed by two
further buffered bytes. -/
def unknownCommandState : ManagerState :=
  { portPresent := true, portOpen := true, isConnected := true, currentPort := "COM9",
    firmwareMode := .interactive, modeDetectionComplete := true, ackTimeoutCount := 0,
    inBuffer := HEADER1 :: HEADER2 :: DATA_PACKET_SIZE ::
      ([3, 1, 2, 3, 4, 5, 6, 7, 8, 9, 10, 11, 12] ++ 0 :: [9, 9]), ioFault := false }

/-- A connected manager with 16 buffered bytes whose port raises an
I/O-level exception on the next read. -/
def faultedReadState : ManagerState :=
  { portPresent := true, portOpen := true, isConnected := true, currentPort := "COM2",
    firmwareMode := .interactive, modeDetectionComplete := true, ackTimeoutCount := 0,
    inBuffer := List.replicate 16 0, ioFault := true }

/-- A second faulted manager (20 buffered bytes), for instantiating the
general statement about swallowed I/O errors. -/
def faultedReadStateB : ManagerState :=
  { portPresent := true, portOpen := true, isConnected := true, currentPort := "COM2",
    firmwareMode := .random_torque, modeDetectionComplete := true, ackTimeoutCount := 3,
    inBuffer := List.replicate 20 1, ioFault := true }

/-! ### Serialization helper lemmas -/

theorem fromLEBytes_toLEBytes (bits : Nat) (h : bits < 4294967296) :
    fromLEBytes (toLEBytes bits) = bits := by
  simp only [toLEBytes, fromLEBytes]
  omega

/-! ### Arithmetic helper lemmas about the two checksum computations -/

theorem foldl_addMod_eq (l : List Nat) : ∀ a : Nat,
    l.foldl (fun c b => (c + b) % 256) (a % 256) = (l.foldl (· + ·) a) % 256 := by
  induction l with
  | nil => intro a; rfl
  | cons x t ih =>
    intro a
    have h1 : (a % 256 + x) % 256 = (a + x) % 256 := by omega
    simpa [h1] using ih (a + x)

theorem sumMod256_eq (l : List Nat) : sumMod256 l = (l.foldl (· + ·) 0) % 256 := by
  simpa using foldl_addMod_eq l 0

theorem sumMod256_lt (l : List Nat) : sumMod256 l < 256 := by
  rw [sumMod256_eq]; omega

/-- The firmware's `(~c) + 1` on the wrapping `uint8_t` sum agrees with the
host's `(~x + 1) & 0xFF` on the plain Python sum. -/
theorem fw_checksum_eq_py (l : List Nat) :
    (255 - sumMod256 l + 1) % 256 = pyTwosComplement (l.foldl (· + ·) 0) := by
  have h1 := sumMod256_eq l
  have h2 := sumMod256_lt l
  unfold pyTwosComplement
  omega

theorem foldl_add_eq_sum (l : List Nat) : ∀ a : Nat, l.foldl (· + ·) a = a + l.sum := by
  induction l with
  | nil => intro a; simp
  | cons x t ih => intro a; simp [ih]; omega

/-! ### Helper lemmas about the ACK scan -/

theorem not_containsAck_short (l : List Nat) (h : l.length < 3) : ¬ containsAck l := by
  rintro ⟨i, hi⟩
  have hlen := congrArg List.length hi
  simp [List.length_take, List.length_drop] at hlen
  omega

theorem containsAck_cons (b : Nat) (t : List Nat) :
    containsAck (b :: t) ↔
      ((b :: t).take 3 = [HEADER1, HEADER2, ACK_BYTE]) ∨ containsAck t := by
  constructor
  · rintro ⟨i, hi⟩
    cases i with
    | zero => exact Or.inl (by simpa using hi)
    | succ j => exact Or.inr ⟨j, by simpa using hi⟩
  · rintro (h | ⟨j, hj⟩)
    · exact ⟨0, by simpa using h⟩
    · exact ⟨j + 1, by simpa using hj⟩

theorem scanAck_iff (l : List Nat) : scanAck l = true ↔ containsAck l := by
  induction l with
  | nil =>
    simp only [scanAck]
    exact iff_of_false (by simp) (not_containsAck_short _ (by simp))
  | cons b0 t ih =>
    rcases t with _ | ⟨b1, t1⟩
    · simp only [scanAck]
      exact iff_of_false (by simp) (not_containsAck_short _ (by simp))
    rcases t1 with _ | ⟨b2, rest⟩
    · simp only [scanAck]
      exact iff_of_false (by simp) (not_containsAck_short _ (by simp))
    rw [containsAck_cons]
    by_cases hm : b0 = HEADER1 ∧ b1 = HEADER2 ∧ b2 = ACK_BYTE
    · simp [scanAck, hm, hm.1, hm.2.1, hm.2.2]
    · have hs : scanAck (b0 :: b1 :: b2 :: rest) = scanAck (b1 :: b2 :: rest) := by
        simp [scanAck, hm]
      have htake : ((b0 :: b1 :: b2 :: rest).take 3 = [HEADER1, HEADER2, ACK_BYTE]) ↔ False := by
        constructor
        · intro h
          apply hm
          simp at h
          exact ⟨h.1, h.2.1, h.2.2⟩
        · exact False.elim
      rw [hs, htake, ih]
      tauto

theorem containsAck_append_right (x y : List Nat) (h : containsAck x) :
    containsAck (x ++ y) := by
  obtain ⟨i, hi⟩ := h
  have hlen := congrArg List.length hi
  simp [List.length_take, List.length_drop] at hlen
  refine ⟨i, ?_⟩
  rw [List.drop_append_of_le_length (by omega),
      List.take_append_of_le_length (by simp [List.length_drop]; omega)]
  exact hi

theorem containsAck_append_left (u s : List Nat) (h : containsAck s) :
    containsAck (u ++ s) := by
  obtain ⟨i, hi⟩ := h
  refine ⟨u.length + i, ?_⟩
  have hdrop : (u ++ s).drop (u.length + i) = s.drop i := by
    rw [← List.drop_drop, List.drop_left]
  rw [hdrop]
  exact hi

theorem containsAck_of_suffix {s l : List Nat} (h : s <:+ l) (hc : containsAck s) :
    containsAck l := by
  obtain ⟨u, rfl⟩ := h
  exact containsAck_append_left u s hc

theorem suffix_of_suffix_length_le {s₁ s₂ l : List Nat}
    (h1 : s₁ <:+ l) (h2 : s₂ <:+ l) (hle : s₁.length ≤ s₂.length) : s₁ <:+ s₂ := by
  rcases List.suffix_or_suffix_of_suffix h1 h2 with h | h
  · exact h
  · rw [List.IsSuffix.eq_of_length_le h hle]

theorem containsAck_append_cases (B c : List Nat) (h : containsAck (B ++ c)) :
    containsAck B ∨ containsAck (B.drop (B.length - 2) ++ c) := by
  obtain ⟨i, hi⟩ := h
  by_cases hcase : i + 3 ≤ B.length
  · left
    refine ⟨i, ?_⟩
    rw [List.drop_append_of_le_length (by omega)] at hi
    rw [List.take_append_of_le_length (by simp [List.length_drop]; omega)] at hi
    exact hi
  · right
    refine ⟨i - (B.length - 2), ?_⟩
    have hk : B.length - 2 ≤ i := by omega
    have hdrop : (B.drop (B.length - 2) ++ c) = (B ++ c).drop (B.length - 2) := by
      rw [List.drop_append_of_le_length (by omega)]
    rw [hdrop, List.drop_drop]
    have heq : B.length - 2 + (i - (B.length - 2)) = i := by omega
    rw [heq]
    exact hi

/-- If the ACK wait loop reports success then the ACK sentinel sequence
occurs in the byte stream (`B` is the stream already drained into the
buffer, of which the live buffer `b` is a suffix). -/
theorem ackWaitLoop_sound (cs : List (List Nat)) : ∀ b B : List Nat, b <:+ B →
    ackWaitLoop b cs = true → containsAck (B ++ cs.flatten) := by
  induction cs with
  | nil =>
    intro b B _ h
    simp [ackWaitLoop] at h
  | cons c rest ih =>
    intro b B hsuf h
    simp only [ackWaitLoop] at h
    have hsc : b ++ c <:+ B ++ c := by
      obtain ⟨u, rfl⟩ := hsuf
      exact ⟨u, by rw [List.append_assoc]⟩
    by_cases hc : c.length = 0
    · rw [if_pos hc] at h
      have hc0 : c = [] := List.length_eq_zero.mp hc
      subst hc0
      simpa using ih b B hsuf h
    · rw [if_neg hc] at h
      by_cases hscan : scanAck (b ++ c) = true
      · have hcont := (scanAck_iff _).mp hscan
        have : containsAck ((B ++ c) ++ rest.flatten) :=
          containsAck_append_right _ _ (containsAck_of_suffix hsc hcont)
        simpa [List.append_assoc] using this
      · rw [if_neg hscan] at h
        have hb' : (if (b ++ c).length > 100 then
            (b ++ c).drop ((b ++ c).length - 100) else b ++ c) <:+ B ++ c := by
          split
          · exact (List.drop_suffix _ _).trans hsc
          · exact hsc
        have := ih _ (B ++ c) hb' h
        simpa [List.append_assoc] using this

/-- If the ACK wait loop times out then the ACK sentinel sequence does not
occur in the byte stream: the rolling buffer always keeps at least the last
two drained bytes, so no occurrence can be lost to the 100-byte
truncation. -/
theorem ackWaitLoop_complete (cs : List (List Nat)) : ∀ b B : List Nat, b <:+ B →
    min 2 B.length ≤ b.length → ¬ containsAck B →
    ackWaitLoop b cs = false → ¬ containsAck (B ++ cs.flatten) := by
  induction cs with
  | nil =>
    intro b B _ _ hB h
    simpa using hB
  | cons c rest ih =>
    intro b B hsuf hmin hB h
    simp only [ackWaitLoop] at h
    by_cases hc : c.length = 0
    · rw [if_pos hc] at h
      have hc0 : c = [] := List.length_eq_zero.mp hc
      subst hc0
      simpa using ih b B hsuf hmin hB h
    · rw [if_neg hc] at h
      by_cases hscan : scanAck (b ++ c) = true
      · rw [if_pos hscan] at h
        exact absurd h (by simp)
      · rw [if_neg hscan] at h
        have hscan' : ¬ containsAck (b ++ c) := fun hcon => hscan ((scanAck_iff _).mpr hcon)
        have hBc : ¬ containsAck (B ++ c) := by
          intro hcon
          rcases containsAck_append_cases B c hcon with h1 | h1
          · exact hB h1
          · have hs2 : B.drop (B.length - 2) <:+ B := List.drop_suffix _ _
            have hlen : (B.drop (B.length - 2)).length ≤ b.length := by
              simp only [List.length_drop]
              omega
            obtain ⟨u, hu⟩ := suffix_of_suffix_length_le hs2 hsuf hlen
            apply hscan'
            rw [← hu, List.append_assoc]
            exact containsAck_append_left u _ h1
        have hsc : b ++ c <:+ B ++ c := by
          obtain ⟨u, rfl⟩ := hsuf
          exact ⟨u, by rw [List.append_assoc]⟩
        have hsuf' : (if (b ++ c).length > 100 then
            (b ++ c).drop ((b ++ c).length - 100) else b ++ c) <:+ B ++ c := by
          split
          · exact (List.drop_suffix _ _).trans hsc
          · exact hsc
        have hblen : b.length ≤ B.length := hsuf.length_le
        have hmin' : min 2 (B ++ c).length ≤
            (if (b ++ c).length > 100 then
              (b ++ c).drop ((b ++ c).length - 100) else b ++ c).length := by
          split <;> simp only [List.length_drop, List.length_append] <;> omega
        have := ih _ (B ++ c) hsuf' hmin' hBc h
        intro hcon
        apply this
        rw [List.append_assoc]
        simpa using hcon

/-- Starting from an empty buffer, the ACK wait succeeds exactly when the
ACK sentinel sequence occurs somewhere in the concatenated inbound
stream. -/
theorem ackWaitLoop_iff (cs : List (List Nat)) :
    ackWaitLoop [] cs = true ↔ containsAck cs.flatten := by
  constructor
  · intro h
    simpa using ackWaitLoop_sound cs [] [] (List.suffix_refl _) h
  · intro h
    by_contra hfalse
    have hf : ackWaitLoop [] cs = false := by
      cases hv : ackWaitLoop [] cs
      · rfl
      · exact absurd hv hfalse
    have := ackWaitLoop_complete cs [] [] (List.suffix_refl _) (by simp)
      (not_containsAck_short [] (by simp)) hf
    simp at this
    exact this h

/-! ### Parsing a size-13 frame: the shared shape of the scanner theorems -/

/-- How `read_data_packet` treats a buffer that starts with a correctly
headed, correctly sized frame `FF FF 0D  d(13 bytes)  ck`, followed by any
further bytes `rest`: the 17 frame bytes are consumed, and the outcome is
decided first by the command byte (silent drop), then by the checksum
(error event), and otherwise the three floats are decoded. -/
theorem read_data_packet_frame (s : ManagerState) (d : List Nat) (ck : Nat) (rest : List Nat)
    (hc : s.isConnected = true) (hport : s.portPresent = true) (hio : s.ioFault = false)
    (hd13 : d.length = 13)
    (hbuf : s.inBuffer = HEADER1 :: HEADER2 :: DATA_PACKET_SIZE :: (d ++ ck :: rest)) :
    read_data_packet s =
      if d.getD 0 0 ≠ CMD_GET_DATA then ⟨{ s with inBuffer := rest }, [], .noPacket⟩
      else if ck ≠ host_calculated_checksum DATA_PACKET_SIZE d then
        ⟨{ s with inBuffer := rest },
          [.checksumMismatch ck (host_calculated_checksum DATA_PACKET_SIZE d)], .noPacket⟩
      else
        ⟨{ s with inBuffer := rest }, [],
          .packet (fromLEBytes ((d.drop 1).take 4)) (fromLEBytes ((d.drop 5).take 4))
            (fromLEBytes ((d.drop 9).take 4))⟩ := by
  simp only [DATA_PACKET_SIZE, HEADER1, HEADER2, CMD_GET_DATA] at hbuf ⊢
  have hlen : s.inBuffer.length = 17 + rest.length := by
    rw [hbuf]
    simp [hd13]
    omega
  simp only [read_data_packet, DATA_PACKET_SIZE, HEADER1, HEADER2, CMD_GET_DATA]
  rw [if_neg (by simp [hc, hport])]
  rw [if_neg (by omega)]
  rw [if_neg (by simp [hio])]
  have hget0 : s.inBuffer.getD 0 0 = 255 := by rw [hbuf]; rfl
  have hget1 : s.inBuffer.getD 1 0 = 255 := by rw [hbuf]; rfl
  have hget2 : s.inBuffer.getD 2 0 = 13 := by rw [hbuf]; rfl
  have htk3 : (s.inBuffer.take 3).length = 3 := by
    simp only [List.length_take]
    omega
  rw [if_neg (not_not_intro ⟨htk3, hget0, hget1⟩)]
  rw [hget2]
  rw [if_neg (by simp)]
  have hdrop3 : s.inBuffer.drop 3 = d ++ ck :: rest := by rw [hbuf]; rfl
  rw [hdrop3]
  have hremaining : (d ++ ck :: rest).take (13 + 1) = d ++ [ck] := by
    rw [List.take_append_eq_append_take, List.take_of_length_le (by omega)]
    rw [hd13]
    simp
  have hrest : (d ++ ck :: rest).drop (13 + 1) = rest := by
    rw [List.drop_append_eq_append_drop, List.drop_eq_nil_of_le (by omega)]
    rw [hd13]
    rfl
  rw [hremaining, hrest]
  have hrlen : (d ++ [ck]).length = 13 + 1 := by simp [hd13]
  rw [if_neg (not_not_intro hrlen)]
  have hcmd : (d ++ [ck]).getD 0 0 = d.getD 0 0 :=
    List.getD_append d [ck] 0 0 (by omega)
  rw [hcmd]
  by_cases hcv : d.getD 0 0 = 2
  case neg =>
    rw [if_pos hcv, if_pos hcv]
  case pos =>
    rw [if_neg (not_not_intro hcv), if_neg (not_not_intro hcv)]
    have hrc : (d ++ [ck]).getD 13 0 = ck := by
      rw [List.getD_append_right d [ck] 0 13 (by omega), hd13]
      rfl
    have htk13 : (d ++ [ck]).take 13 = d := by
      rw [List.take_append_eq_append_take, List.take_of_length_le (by omega), hd13]
      simp
    rw [hrc, htk13]
    have hx1 : ((d ++ [ck]).drop 1).take 4 = (d.drop 1).take 4 := by
      rw [List.drop_append_of_le_length (by omega),
          List.take_append_of_le_length (by simp [List.length_drop]; omega)]
    have hx5 : ((d ++ [ck]).drop 5).take 4 = (d.drop 5).take 4 := by
      rw [List.drop_append_of_le_length (by omega),
          List.take_append_of_le_length (by simp [List.length_drop]; omega)]
    have hx9 : ((d ++ [ck]).drop 9).take 4 = (d.drop 9).take 4 := by
      rw [List.drop_append_of_le_length (by omega),
          List.take_append_of_le_length (by simp [List.length_drop]; omega)]
    rw [hx1, hx5, hx9]

/-- The checksum byte the V2 firmware appends (`(~c) + 1` over the wrapping
`uint8_t` sum of size byte and payload) is exactly the checksum the host
recomputes from the size byte and the 13 payload bytes. -/
theorem fw_frame_checksum (P : List Nat) :
    (255 - sumMod256 (DATA_PACKET_SIZE :: P) + 1) % 256 =
      host_calculated_checksum DATA_PACKET_SIZE P := by
  rw [fw_checksum_eq_py]
  rfl

/-- Decoding a V2 encoder frame succeeds and returns the original three
float bit patterns. -/
theorem read_sendDataPacket (s : ManagerState) (t a p : Nat)
    (ht : t < 4294967296) (ha : a < 4294967296) (hp : p < 4294967296)
    (hc : s.isConnected = true) (hport : s.portPresent = true) (hio : s.ioFault = false)
    (hbuf : s.inBuffer = sendDataPacket t a p) :
    read_data_packet s = ⟨{ s with inBuffer := [] }, [], .packet t a p⟩ := by
  have hbuf' : s.inBuffer = HEADER1 :: HEADER2 :: DATA_PACKET_SIZE ::
      ((CMD_GET_DATA :: (toLEBytes t ++ (toLEBytes a ++ toLEBytes p))) ++
        host_calculated_checksum DATA_PACKET_SIZE
          (CMD_GET_DATA :: (toLEBytes t ++ (toLEBytes a ++ toLEBytes p))) :: []) := by
    rw [hbuf]
    simp only [sendDataPacket]
    rw [fw_frame_checksum]
  rw [read_data_packet_frame s _ _ [] hc hport hio (by simp [toLEBytes]) hbuf']
  simp [toLEBytes, fromLEBytes]
  omega

/-- A V3 encoder frame is rejected by the host scanner: its declared length
21 differs from the expected 13, so the whole buffer is cleared and `None`
is returned. -/
theorem read_sendDataPacketV3 (s : ManagerState) (m d a p q : Nat)
    (hc : s.isConnected = true) (hport : s.portPresent = true) (hio : s.ioFault = false)
    (hbuf : s.inBuffer = sendDataPacketV3 m d a p q) :
    read_data_packet s = ⟨{ s with inBuffer := [] }, [], .noPacket⟩ := by
  unfold sendDataPacketV3 at hbuf
  have hlen : s.inBuffer.length = 25 := by
    rw [hbuf]
    simp [toLEBytes]
  simp only [read_data_packet]
  rw [if_neg (by simp [hc, hport])]
  rw [if_neg (by omega)]
  rw [if_neg (by simp [hio])]
  have hget0 : s.inBuffer.getD 0 0 = HEADER1 := by rw [hbuf]; rfl
  have hget1 : s.inBuffer.getD 1 0 = HEADER2 := by rw [hbuf]; rfl
  have hget2 : s.inBuffer.getD 2 0 = DATA_PACKET_SIZE_V3 := by rw [hbuf]; rfl
  have htk3 : (s.inBuffer.take 3).length = 3 := by
    simp only [List.length_take]
    omega
  rw [if_neg (not_not_intro ⟨htk3, hget0, hget1⟩)]
  rw [hget2]
  rw [if_pos (by decide)]

/-! ### Claim theorems -/

/-- C1 counterexample: the claim fails for variant V3.  The host scanner
`read_data_packet` accepts only the 13-byte declared length, so decoding a
V3 encoder frame does not reproduce its floats: it returns `None` and
clears the buffer. -/
theorem c1_v3_frame_not_roundtripped :
    (read_data_packet v3FrameState).result = .noPacket ∧
    (read_data_packet v3FrameState).state.inBuffer = [] := by
  decide

/-- C1 (amended): decoding a V2 encoder frame with `read_data_packet`
reproduces the three original floats bit-identically (in particular the
17-byte example frame), while a V3 encoder frame is rejected — its
declared length 21 differs from the expected 13, the buffer is reset and
`None` is returned.  (No V1 encoder exists in the repository sources.) -/
theorem c1_roundtrip_v2_and_v3_rejected :
    (∀ (s : ManagerState) (t a p : Nat),
      t < 4294967296 → a < 4294967296 → p < 4294967296 →
      s.isConnected = true → s.portPresent = true → s.ioFault = false →
      s.inBuffer = sendDataPacket t a p →
      read_data_packet s = ⟨{ s with inBuffer := [] }, [], .packet t a p⟩) ∧
    (∀ (s : ManagerState) (m d a p q : Nat),
      s.isConnected = true → s.portPresent = true → s.ioFault = false →
      s.inBuffer = sendDataPacketV3 m d a p q →
      read_data_packet s = ⟨{ s with inBuffer := [] }, [], .noPacket⟩) :=
  ⟨fun s t a p ht ha hp hc hport hio hbuf =>
      read_sendDataPacket s t a p ht ha hp hc hport hio hbuf,
    fun s m d a p q hc hport hio hbuf =>
      read_sendDataPacketV3 s m d a p q hc hport hio hbuf⟩

/-- C1 witness: decoding the exact 17-byte V2 example frame (torque
`1.234f`, angle `-45.67f`, pwm `812.0f`) reproduces the three bit
patterns. -/
theorem c1_roundtrip_witness :
    (read_data_packet exampleFrameState).result =
      .packet 0x3F9DF3B6 0xC236AE14 0x444B0000 := by
  rw [c1_roundtrip_v2_and_v3_rejected.1 exampleFrameState 0x3F9DF3B6 0xC236AE14 0x444B0000
    (by decide) (by decide) (by decide) rfl rfl rfl rfl]

/-- C2: on every V2 encoder frame, the byte sum from the length byte
through the checksum byte is 0 mod 256; the checksum byte (index 16)
equals the two's complement of the sum from the length byte through the
last payload byte; and the host's `host_calculated_checksum` over the
length byte and the 13 payload bytes reproduces exactly that byte. -/
theorem c2_checksum_validity (t a p : Nat) :
    ((sendDataPacket t a p).drop 2).foldl (· + ·) 0 % 256 = 0 ∧
    (sendDataPacket t a p).getD 16 0 =
      pyTwosComplement ((((sendDataPacket t a p).drop 2).take 14).foldl (· + ·) 0) ∧
    host_calculated_checksum DATA_PACKET_SIZE (((sendDataPacket t a p).drop 3).take 13) =
      (sendDataPacket t a p).getD 16 0 := by
  refine ⟨?_, ?_, ?_⟩ <;>
    simp [sendDataPacket, toLEBytes, sumMod256, host_calculated_checksum,
      pyTwosComplement, List.getD] <;>
    omega

/-- C3 (code bug): with exactly 16 bytes available — one byte short of the
17-byte full V2 frame — `read_data_packet` does attempt the read (its
guard is `in_waiting < 16`, though its own comment describes the full
packet size header + size + data + checksum), consumes all 16 buffered
bytes and returns `None`, instead of returning `None` without consuming
anything. -/
theorem c3_sixteen_bytes_attempts_read_and_consumes :
    sixteenByteState.inBuffer.length = 16 ∧ 16 < 17 ∧
    (read_data_packet sixteenByteState).result = .noPacket ∧
    (read_data_packet sixteenByteState).state.inBuffer = [] := by
  decide

/-- C4: if, with at least 16 bytes available, either header byte read is
not `0xFF` or the declared length byte is not 13, `read_data_packet`
clears the entire input buffer and returns `None`; in particular no frame
with a mismatched header is ever accepted. -/
theorem c4_resync_on_bad_header_or_length (s : ManagerState)
    (hc : s.isConnected = true) (hport : s.portPresent = true) (hio : s.ioFault = false)
    (h16 : 16 ≤ s.inBuffer.length)
    (hbad : s.inBuffer.getD 0 0 ≠ HEADER1 ∨ s.inBuffer.getD 1 0 ≠ HEADER2 ∨
      s.inBuffer.getD 2 0 ≠ DATA_PACKET_SIZE) :
    read_data_packet s = ⟨{ s with inBuffer := [] }, [], .noPacket⟩ := by
  simp only [read_data_packet]
  rw [if_neg (by simp [hc, hport])]
  rw [if_neg (by omega)]
  rw [if_neg (by simp [hio])]
  by_cases hA : (s.inBuffer.take 3).length = 3 ∧ s.inBuffer.getD 0 0 = HEADER1 ∧
      s.inBuffer.getD 1 0 = HEADER2
  · rw [if_neg (not_not_intro hA)]
    have hsz : s.inBuffer.getD 2 0 ≠ DATA_PACKET_SIZE := by
      rcases hbad with h | h | h
      · exact absurd hA.2.1 h
      · exact absurd hA.2.2 h
      · exact h
    rw [if_pos hsz]
  · rw [if_pos hA]

/-- C4 witness: 16 bytes of `0xAB` noise are entirely discarded. -/
theorem c4_resync_witness :
    read_data_packet badHeaderState = ⟨{ badHeaderState with inBuffer := [] }, [], .noPacket⟩ :=
  c4_resync_on_bad_header_or_length badHeaderState rfl rfl rfl (by decide)
    (Or.inl (by decide))

/-- C5: a correctly framed size-13 `GET_DATA` frame whose checksum byte
differs from the recomputed one is rejected with `None`, a
checksum-mismatch error event is emitted, and the connection is left open
and otherwise untouched (`is_connected` stays `True`, the port stays
present and open). -/
theorem c5_checksum_mismatch_recoverable (s : ManagerState) (d : List Nat) (ck : Nat)
    (rest : List Nat) (hc : s.isConnected = true) (hport : s.portPresent = true)
    (hio : s.ioFault = false) (hd13 : d.length = 13) (hcmd : d.getD 0 0 = CMD_GET_DATA)
    (hbad : ck ≠ host_calculated_checksum DATA_PACKET_SIZE d)
    (hbuf : s.inBuffer = HEADER1 :: HEADER2 :: DATA_PACKET_SIZE :: (d ++ ck :: rest)) :
    (read_data_packet s).result = .noPacket ∧
    (read_data_packet s).events =
      [.checksumMismatch ck (host_calculated_checksum DATA_PACKET_SIZE d)] ∧
    (read_data_packet s).state.isConnected = true ∧
    (read_data_packet s).state.portOpen = s.portOpen ∧
    (read_data_packet s).state.portPresent = s.portPresent := by
  rw [read_data_packet_frame s d ck rest hc hport hio hd13 hbuf]
  rw [if_neg (not_not_intro hcmd), if_pos hbad]
  exact ⟨rfl, rfl, hc, rfl, rfl⟩

/-- C5 witness: a frame with checksum byte 7 where 163 is expected is
rejected with the error event while the connection stays up. -/
theorem c5_checksum_mismatch_witness :
    (read_data_packet badChecksumState).result = .noPacket ∧
    (read_data_packet badChecksumState).events = [.checksumMismatch 7 163] ∧
    (read_data_packet badChecksumState).state.isConnected = true := by
  have h := c5_checksum_mismatch_recoverable badChecksumState
    [2, 1, 2, 3, 4, 5, 6, 7, 8, 9, 10, 11, 12] 7 [] rfl rfl rfl (by decide) (by decide)
    (by decide) rfl
  exact ⟨h.1, h.2.1.trans (by decide), h.2.2.1⟩

/-- C6: in interactive mode on a connected manager, `send_torque_command`
returns the acknowledged outcome exactly when the 3-byte sequence
`FF FF AA` occurs anywhere in the bytes drained from the inbound stream
before the deadline (so it times out when the stream is exhausted without
it), and in particular it finds an ACK that immediately follows a full
telemetry frame in one chunk. -/
theorem c6_ack_scan_bounded_wait (chunks : List (List Nat)) :
    (send_torque_command .interactive true true false chunks = true ↔
      containsAck chunks.flatten) ∧
    (∀ t a p : Nat,
      send_torque_command .interactive true true false
        [sendDataPacket t a p ++ [HEADER1, HEADER2, ACK_BYTE]] = true) := by
  have hred : ∀ cs : List (List Nat),
      send_torque_command .interactive true true false cs = ackWaitLoop [] cs := by
    intro cs
    simp [send_torque_command]
  constructor
  · rw [hred]
    exact ackWaitLoop_iff chunks
  · intro t a p
    rw [hred, ackWaitLoop_iff]
    have hack : containsAck [HEADER1, HEADER2, ACK_BYTE] := ⟨0, rfl⟩
    simpa using containsAck_append_left (sendDataPacket t a p) _ hack

/-- C7: the mode-detection trichotomy of `connect_to_port`: an
acknowledged probe yields an established interactive connection; an
unacknowledged probe with more than 10 unsolicited bytes waiting yields an
established autonomous (`random_torque`) connection; otherwise the port is
closed and released and the attempt fails with a communication error. -/
theorem c7_mode_detection_trichotomy (port : String) (chunks : List (List Nat)) (w : Nat) :
    (send_torque_command .interactive false true true chunks = true →
      (connect_to_port port chunks w).success = true ∧
      (connect_to_port port chunks w).state.firmwareMode = .interactive ∧
      (connect_to_port port chunks w).state.isConnected = true ∧
      (connect_to_port port chunks w).state.modeDetectionComplete = true) ∧
    (send_torque_command .interactive false true true chunks = false → 10 < w →
      (connect_to_port port chunks w).success = true ∧
      (connect_to_port port chunks w).state.firmwareMode = .random_torque ∧
      (connect_to_port port chunks w).state.isConnected = true ∧
      (connect_to_port port chunks w).state.modeDetectionComplete = true) ∧
    (send_torque_command .interactive false true true chunks = false → w ≤ 10 →
      (connect_to_port port chunks w).success = false ∧
      (connect_to_port port chunks w).state.portPresent = false ∧
      (connect_to_port port chunks w).state.isConnected = false ∧
      (connect_to_port port chunks w).events = [.ackTimeout, .communicationFailed]) := by
  refine ⟨fun h => ?_, fun h hw => ?_, fun h hw => ?_⟩
  · simp [connect_to_port, h]
  · simp [connect_to_port, h, hw]
  · have hw' : ¬ (10 < w) := by omega
    simp [connect_to_port, h, hw']

/-- C7 witness: the three detection outcomes at concrete probe streams —
an ACK chunk gives interactive, silence with 11 waiting bytes gives
autonomous, silence with 0 waiting bytes gives a failed attempt with the
port released. -/
theorem c7_mode_detection_witness :
    ((connect_to_port "COM4" [[255, 255, 170]] 0).success = true ∧
      (connect_to_port "COM4" [[255, 255, 170]] 0).state.firmwareMode = .interactive) ∧
    ((connect_to_port "COM4" [] 11).success = true ∧
      (connect_to_port "COM4" [] 11).state.firmwareMode = .random_torque) ∧
    ((connect_to_port "COM4" [] 0).success = false ∧
      (connect_to_port "COM4" [] 0).state.portPresent = false) := by
  refine ⟨?_, ?_, ?_⟩
  · have h := (c7_mode_detection_trichotomy "COM4" [[255, 255, 170]] 0).1 (by decide)
    exact ⟨h.1, h.2.1⟩
  · have h := (c7_mode_detection_trichotomy "COM4" [] 11).2.1 (by decide) (by decide)
    exact ⟨h.1, h.2.1⟩
  · have h := (c7_mode_detection_trichotomy "COM4" [] 0).2.2 (by decide) (by decide)
    exact ⟨h.1, h.2.1⟩

/-- C8 counterexample: an I/O-level exception during the packet read is
not propagated and does not close the connection — on a connected, faulted
manager, `read_data_packet` returns the ordinary non-fatal `None` result
and `is_connected` and the port remain untouched (still open), refuting
the claimed transition to a closed connection with a distinguishable
connection-fatal error. -/
theorem c8_io_error_not_propagated :
    (read_data_packet faultedReadState).result = .noPacket ∧
    (read_data_packet faultedReadState).state.isConnected = true ∧
    (read_data_packet faultedReadState).state.portOpen = true ∧
    (read_data_packet faultedReadState).state.portPresent = true ∧
    (read_data_packet faultedReadState).events = [.readError] := by
  decide

/-- C8 (amended): an I/O-level exception raised while reading a data
packet is caught by `read_data_packet`'s generic exception handler: an
`error_occurred` message is emitted and the call is folded into the
non-fatal `None` result exactly like a malformed frame; the manager state
— in particular `is_connected` and the port — is left unchanged, so the
connection does not transition to closed. -/
theorem c8_io_error_swallowed (s : ManagerState)
    (hc : s.isConnected = true) (hport : s.portPresent = true)
    (h16 : 16 ≤ s.inBuffer.length) (hio : s.ioFault = true) :
    read_data_packet s = ⟨s, [.readError], .noPacket⟩ := by
  simp only [read_data_packet]
  rw [if_neg (by simp [hc, hport])]
  rw [if_neg (by omega)]
  rw [if_pos hio]

/-- C8 witness: the swallowed I/O error at a concrete faulted manager. -/
theorem c8_io_error_swallowed_witness :
    read_data_packet faultedReadStateB = ⟨faultedReadStateB, [.readError], .noPacket⟩ :=
  c8_io_error_swallowed faultedReadStateB rfl rfl (by decide) rfl

/-- C9: a frame with valid header and declared length 13 whose first
payload byte is not `GET_DATA = 0x02` is silently dropped: the 17 frame
bytes are consumed, the rest of the buffer is left in place (no reset), no
event is emitted, and the checksum byte — whatever its value — is never
validated, the call returning `None`. -/
theorem c9_unknown_command_silently_dropped (s : ManagerState) (d : List Nat) (ck : Nat)
    (rest : List Nat) (hc : s.isConnected = true) (hport : s.portPresent = true)
    (hio : s.ioFault = false) (hd13 : d.length = 13)
    (hcmd : d.getD 0 0 ≠ CMD_GET_DATA)
    (hbuf : s.inBuffer = HEADER1 :: HEADER2 :: DATA_PACKET_SIZE :: (d ++ ck :: rest)) :
    read_data_packet s = ⟨{ s with inBuffer := rest }, [], .noPacket⟩ := by
  rw [read_data_packet_frame s d ck rest hc hport hio hd13 hbuf]
  rw [if_pos hcmd]

/-- C9 witness: a command-3 frame with a (deliberately invalid) checksum
byte 0 is consumed without any event, leaving the two trailing buffered
bytes untouched. -/
theorem c9_unknown_command_witness :
    (read_data_packet unknownCommandState).result = .noPacket ∧
    (read_data_packet unknownCommandState).events = [] ∧
    (read_data_packet unknownCommandState).state.inBuffer = [9, 9] := by
  have h := c9_unknown_command_silently_dropped unknownCommandState
    [3, 1, 2, 3, 4, 5, 6, 7, 8, 9, 10, 11, 12] 0 [9, 9] rfl rfl rfl (by decide)
    (by decide) rfl
  rw [h]
  exact ⟨rfl, rfl, rfl⟩

/-- C10: after any `disconnect` call — whatever the outcome of the
best-effort zero-torque send and whether or not `close()` raises — the
manager ends with `serial_port = None`, `is_connected = False`,
`current_port = ""`, `firmware_mode = "interactive"`,
`mode_detection_complete = False` and `ack_timeout_count = 0`, and the
last emitted signal is `connection_changed(False)`. -/
theorem c10_disconnect_resets_detection_state (s : ManagerState)
    (sendTimedOut closeRaises : Bool) :
    (disconnect s sendTimedOut closeRaises).1.portPresent = false ∧
    (disconnect s sendTimedOut closeRaises).1.isConnected = false ∧
    (disconnect s sendTimedOut closeRaises).1.currentPort = "" ∧
    (disconnect s sendTimedOut closeRaises).1.firmwareMode = .interactive ∧
    (disconnect s sendTimedOut closeRaises).1.modeDetectionComplete = false ∧
    (disconnect s sendTimedOut closeRaises).1.ackTimeoutCount = 0 ∧
    (disconnect s sendTimedOut closeRaises).2.getLast? =
      some (.connectionChanged false) := by
  refine ⟨rfl, rfl, rfl, rfl, rfl, rfl, ?_⟩
  simp only [disconnect]
  exact List.getLast?_concat _

end CableScope
